import Mathlib

/-!
# Verification of nutil's connection-matching and reconciliation engine

Shallow embedding of the Rust sources (`src/connection.rs`, `src/bond.rs`,
`src/access_point.rs`, `src/station.rs`, `src/util.rs`) into Lean.

Connections are modelled as records of optional settings mirroring libnm's
`SimpleConnection`/`Connection` objects; the backend (NetworkManager) is
modelled as explicit state (stored connections, active connections, devices),
and backend responses that the program does not control (auto-activation,
state-change notifications) are parameters of the orchestrator functions.
Rust `Result` errors are `Except Failure`; a Rust panic (`todo!`, `panic!`)
is modelled as the distinguished `Failure.panic` variant so that returned
errors and panics stay distinguishable.
-/

namespace Nutil

/-! ## libnm constants (values of the `nm` crate's setting-name constants) -/

def SETTING_BOND_SETTING_NAME : String := "bond"

def SETTING_WIRED_SETTING_NAME : String := "802-3-ethernet"

def SETTING_WIRELESS_SETTING_NAME : String := "802-11-wireless"

def SETTING_WIRELESS_MODE_AP : String := "ap"

def SETTING_WIRELESS_MODE_INFRA : String := "infrastructure"

def SETTING_IP4_CONFIG_METHOD_MANUAL : String := "manual"

def SETTING_IP4_CONFIG_METHOD_AUTO : String := "auto"

/-- `DEFAULT_IP4_ADDR` from `src/util.rs`. -/
def DEFAULT_IP4_ADDR : String := "192.0.2.1/24"

/-! ## Data model -/

/-- Failures: a returned `anyhow::Error` (`Failure.error`) or a Rust process
panic such as `todo!()` (`Failure.panic`). -/
inductive Failure where
  | error (msg : String)
  | panic (msg : String)
deriving DecidableEq, Repr

/-- `nm::SettingConnection`: the general setting block of a connection. -/
structure SettingConnection where
  id : Option String := none
  type_ : Option String := none
  interface_name : Option String := none
  master : Option String := none
  slave_type : Option String := none
  autoconnect : Bool := true
deriving DecidableEq, Repr

/-- `nm::SettingWireless`. SSID bytes are modelled by the `String` whose
UTF-8 encoding they are (byte-string equality coincides with string
equality). -/
structure SettingWireless where
  mode : Option String := none
  ssid : Option String := none
  hidden : Bool := false
deriving DecidableEq, Repr

/-- `nm::SettingWirelessSecurity`. -/
structure SettingWirelessSecurity where
  key_mgmt : Option String := none
  psk : Option String := none
deriving DecidableEq, Repr

/-- An IPv4 network `a.b.c.d/prefix_len` as parsed by the `ipnet` crate. -/
structure Ipv4Net where
  a : Nat
  b : Nat
  c : Nat
  d : Nat
  prefix_len : Nat
deriving DecidableEq, Repr

/-- `nm::SettingIP4Config`. -/
structure SettingIP4Config where
  method : Option String := none
  addresses : List Ipv4Net := []
deriving DecidableEq, Repr

/-- `nm::SettingBond`: bond options as name/value pairs. -/
structure SettingBond where
  options : List (String × String) := []
deriving DecidableEq, Repr

/-- A connection object (`SimpleConnection` / `Connection` /
`RemoteConnection` all expose the same settings interface). -/
structure NMConnection where
  setting_connection : Option SettingConnection := none
  setting_wireless : Option SettingWireless := none
  setting_wireless_security : Option SettingWirelessSecurity := none
  setting_ip4 : Option SettingIP4Config := none
  setting_bond : Option SettingBond := none
  /-- whether `setting_wired()` returns `Some` -/
  setting_wired_present : Bool := false
deriving DecidableEq, Repr

/-- `Connection::interface_name()`: the interface name stored in the
connection setting. -/
def NMConnection.interface_name (c : NMConnection) : Option String :=
  c.setting_connection.bind (fun s => s.interface_name)

/-- `nm::ActiveConnectionState`. -/
inductive ActiveConnectionState where
  | Unknown
  | Activating
  | Activated
  | Deactivating
  | Deactivated
deriving DecidableEq, Repr

/-- An `nm::ActiveConnection`: a live activation of a stored connection,
with its current state. `conn` is what `ActiveConnection::connection()`
returns (the underlying stored connection, if resolvable). -/
structure ActiveConn where
  conn : Option NMConnection := none
  state : ActiveConnectionState := ActiveConnectionState.Unknown
deriving DecidableEq, Repr

/-- The device types of `nm::DeviceType` that this program mentions, plus a
representative unsupported type (`Generic`). -/
inductive DeviceType where
  | Bond
  | Ethernet
  | Wifi
  | Generic
deriving DecidableEq, Repr

/-- The backend's (NetworkManager's) state as this program observes it:
the stored connections (`client.connections()`), the active connections
(`client.active_connections()`) and the devices present
(`client.device_by_iface`). -/
structure Backend where
  connections : List NMConnection := []
  active : List ActiveConn := []
  devices : List String := []
deriving DecidableEq, Repr

/-! ## `get_connection_state_str` (src/connection.rs) -/

def get_connection_state_str : ActiveConnectionState → String
  | ActiveConnectionState.Activated => "activated"
  | ActiveConnectionState.Activating => "activating"
  | ActiveConnectionState.Deactivated => "deactivated"
  | ActiveConnectionState.Deactivating => "deactivating"
  | ActiveConnectionState.Unknown => "unknown"

/-! ## Matching predicates (src/connection.rs) -/

/-- `matching_bond_connection` (src/connection.rs:342): both connections
must have settings, ids and types; both types must be `bond`; if the
desired connection has an interface name the candidate must have an equal
one. -/
def matching_bond_connection (conn cmp_conn : NMConnection) : Bool :=
  match conn.setting_connection with
  | none => false
  | some conn_settings =>
  match cmp_conn.setting_connection with
  | none => false
  | some cmp_conn_settings =>
  match conn_settings.id with
  | none => false
  | some _ =>
  match cmp_conn_settings.id with
  | none => false
  | some _ =>
  match conn_settings.type_ with
  | none => false
  | some conn_type =>
  if conn_type ≠ SETTING_BOND_SETTING_NAME then false
  else
  match cmp_conn_settings.type_ with
  | none => false
  | some cmp_conn_type =>
  if cmp_conn_type ≠ SETTING_BOND_SETTING_NAME then false
  else
  match conn.interface_name with
  | some conn_ifname =>
    match cmp_conn.interface_name with
    | none => false
    | some cmp_conn_ifname =>
      if conn_ifname ≠ cmp_conn_ifname then false else true
  | none => true

/-- The slave-type comparison tail of `matching_wired_connection`
(src/connection.rs:562-599): asymmetric absence fails, both present
compares for equality, both absent passes. -/
def wired_slave_type_check (conn_slave_type cmp_conn_slave_type : Option String) : Bool :=
  if conn_slave_type.isNone && cmp_conn_slave_type.isSome then false
  else if conn_slave_type.isSome && cmp_conn_slave_type.isNone then false
  else
    match conn_slave_type, cmp_conn_slave_type with
    | some a, some b => if a ≠ b then false else true
    | _, _ => true

/-- `matching_wired_connection` (src/connection.rs:435): type prelude and
interface-name comparison as for bonds (with the wired type), then master
comparison with asymmetric-absence failure and the reserved empty-string
master that matches any candidate master and short-circuits `true`
(skipping the slave-type comparison), then the slave-type comparison. -/
def matching_wired_connection (conn cmp_conn : NMConnection) : Bool :=
  match conn.setting_connection with
  | none => false
  | some conn_settings =>
  match cmp_conn.setting_connection with
  | none => false
  | some cmp_conn_settings =>
  match conn_settings.id with
  | none => false
  | some _ =>
  match cmp_conn_settings.id with
  | none => false
  | some _ =>
  match conn_settings.type_ with
  | none => false
  | some conn_type =>
  if conn_type ≠ SETTING_WIRED_SETTING_NAME then false
  else
  match cmp_conn_settings.type_ with
  | none => false
  | some cmp_conn_type =>
  if cmp_conn_type ≠ SETTING_WIRED_SETTING_NAME then false
  else
  match conn.interface_name with
  | some conn_ifname =>
    match cmp_conn.interface_name with
    | none => false
    | some cmp_conn_ifname =>
      if conn_ifname ≠ cmp_conn_ifname then false
      else wired_master_check conn_settings cmp_conn_settings
  | none => wired_master_check conn_settings cmp_conn_settings
where
  /-- master comparison plus slave-type tail (src/connection.rs:520-599) -/
  wired_master_check (conn_settings cmp_conn_settings : SettingConnection) : Bool :=
    let conn_master := conn_settings.master
    let cmp_conn_master := cmp_conn_settings.master
    if conn_master.isNone && cmp_conn_master.isSome then false
    else if conn_master.isSome && cmp_conn_master.isNone then false
    else
      match conn_master, cmp_conn_master with
      | some cm, some ccm =>
        if cm ≠ ccm && cm ≠ "" then false
        else if cm = "" then true
        else wired_slave_type_check conn_settings.slave_type cmp_conn_settings.slave_type
      | _, _ =>
        wired_slave_type_check conn_settings.slave_type cmp_conn_settings.slave_type

/-- `matching_wifi_connection` (src/connection.rs:603): type prelude with
the wireless type, interface-name comparison, then both connections must
have wireless settings; wireless mode and SSID are compared only when the
desired connection carries them. -/
def matching_wifi_connection (conn cmp_conn : NMConnection) : Bool :=
  match conn.setting_connection with
  | none => false
  | some conn_settings =>
  match cmp_conn.setting_connection with
  | none => false
  | some cmp_conn_settings =>
  match conn_settings.id with
  | none => false
  | some _ =>
  match cmp_conn_settings.id with
  | none => false
  | some _ =>
  match conn_settings.type_ with
  | none => false
  | some conn_type =>
  if conn_type ≠ SETTING_WIRELESS_SETTING_NAME then false
  else
  match cmp_conn_settings.type_ with
  | none => false
  | some cmp_conn_type =>
  if cmp_conn_type ≠ SETTING_WIRELESS_SETTING_NAME then false
  else
  match conn.interface_name with
  | some conn_ifname =>
    match cmp_conn.interface_name with
    | none => false
    | some cmp_conn_ifname =>
      if conn_ifname ≠ cmp_conn_ifname then false
      else wifi_wireless_check conn cmp_conn
  | none => wifi_wireless_check conn cmp_conn
where
  /-- wireless-settings comparison (src/connection.rs:687-751) -/
  wifi_wireless_check (conn cmp_conn : NMConnection) : Bool :=
    match conn.setting_wireless with
    | none => false
    | some conn_wireless_settings =>
    match cmp_conn.setting_wireless with
    | none => false
    | some cmp_conn_wireless_settings =>
    (match conn_wireless_settings.mode with
     | some conn_mode =>
       match cmp_conn_wireless_settings.mode with
       | none => false
       | some cmp_conn_mode =>
         if conn_mode ≠ cmp_conn_mode then false
         else wifi_ssid_check conn_wireless_settings cmp_conn_wireless_settings
     | none => wifi_ssid_check conn_wireless_settings cmp_conn_wireless_settings)
  /-- SSID comparison (src/connection.rs:723-749) -/
  wifi_ssid_check (conn_ws cmp_conn_ws : SettingWireless) : Bool :=
    match conn_ws.ssid with
    | some conn_ssid =>
      match cmp_conn_ws.ssid with
      | none => false
      | some cmp_conn_ssid =>
        if conn_ssid ≠ cmp_conn_ssid then false else true
    | none => true

/-- The kind-specific predicate dispatched by `get_connection` /
`get_active_connection` (src/connection.rs:84-95); `none` for the device
types rejected by the guard at the top of those functions (for which the
dispatch's panic arm is unreachable). -/
def matcher_for : DeviceType → Option (NMConnection → NMConnection → Bool)
  | DeviceType.Bond => some matching_bond_connection
  | DeviceType.Ethernet => some matching_wired_connection
  | DeviceType.Wifi => some matching_wifi_connection
  | DeviceType.Generic => none

/-! ## Search routines (src/connection.rs) -/

/-- The scan loop of `get_connection` (src/connection.rs:69-126): iterate
over all stored connections; a candidate without a retrievable interface
name is skipped (logged `continue`); the first match is saved and the scan
continues, later matches are only logged. -/
def get_connection_loop (pred : NMConnection → NMConnection → Bool)
    (conn : NMConnection) :
    List NMConnection → Option NMConnection → Option NMConnection
  | [], matching_conn => matching_conn
  | cmp_conn :: rest, matching_conn =>
    match cmp_conn.interface_name with
    | none => get_connection_loop pred conn rest matching_conn
    | some _ =>
      let found_matching := pred conn cmp_conn
      if found_matching && matching_conn.isNone then
        get_connection_loop pred conn rest (some cmp_conn)
      else
        get_connection_loop pred conn rest matching_conn

/-- `get_connection` (src/connection.rs:47): returns `none` when the
desired connection has no interface name or the device type is
unsupported; otherwise scans all stored connections with the
kind-specific predicate, returning the first match. -/
def get_connection (device_type : DeviceType) (conn : NMConnection)
    (connections : List NMConnection) : Option NMConnection :=
  match conn.interface_name with
  | none => none
  | some _ =>
    match matcher_for device_type with
    | none => none
    | some pred => get_connection_loop pred conn connections none

/-- The scan loop of `get_active_connection` (src/connection.rs:159-216).
An active connection whose underlying stored connection cannot be
resolved aborts the whole search with `none` (the source `return None`s
there); one without an interface name is skipped; the first match is
saved and the scan continues. -/
def get_active_connection_loop (pred : NMConnection → NMConnection → Bool)
    (conn : NMConnection) :
    List ActiveConn → Option ActiveConn → Option ActiveConn
  | [], matching_conn => matching_conn
  | cmp_active_conn :: rest, matching_conn =>
    match cmp_active_conn.conn with
    | none => none
    | some cmp_conn =>
      match cmp_conn.interface_name with
      | none => get_active_connection_loop pred conn rest matching_conn
      | some _ =>
        let found_matching := pred conn cmp_conn
        if found_matching && matching_conn.isNone then
          get_active_connection_loop pred conn rest (some cmp_active_conn)
        else
          get_active_connection_loop pred conn rest matching_conn

/-- `get_active_connection` (src/connection.rs:137): like `get_connection`
but over the active-connection list, resolving each active connection to
its stored connection first. -/
def get_active_connection (device_type : DeviceType) (conn : NMConnection)
    (active : List ActiveConn) : Option ActiveConn :=
  match conn.interface_name with
  | none => none
  | some _ =>
    match matcher_for device_type with
    | none => none
    | some pred => get_active_connection_loop pred conn active none

/-- The scan loop of `get_slave_connections` (src/connection.rs:244-291):
skip connections without settings; abort the whole search (`return None`)
when a connection's id is missing; skip non-wired connections and
connections without a master or with a different master; collect the
rest. -/
def get_slave_connections_loop (master_ifname : String) :
    List NMConnection → List NMConnection → Option (List NMConnection)
  | [], slave_conns => some slave_conns
  | conn :: rest, slave_conns =>
    match conn.setting_connection with
    | none => get_slave_connections_loop master_ifname rest slave_conns
    | some conn_settings =>
      match conn_settings.id with
      | none => none
      | some _ =>
        if !conn.setting_wired_present then
          get_slave_connections_loop master_ifname rest slave_conns
        else
          match conn_settings.master with
          | some conn_master =>
            if conn_master ≠ master_ifname then
              get_slave_connections_loop master_ifname rest slave_conns
            else
              get_slave_connections_loop master_ifname rest (slave_conns ++ [conn])
          | none => get_slave_connections_loop master_ifname rest slave_conns

/-- `get_slave_connections` (src/connection.rs:222): only the Ethernet
device type is supported; scans wired connections whose configured master
equals `master_ifname` exactly. -/
def get_slave_connections (master_ifname : String)
    (slave_device_type : DeviceType) (connections : List NMConnection) :
    Option (List NMConnection) :=
  if slave_device_type ≠ DeviceType.Ethernet then none
  else get_slave_connections_loop master_ifname connections []

/-! ## Activation wait state machine (src/connection.rs:297-334) -/

/-- The callback body of `wait_for_connection_to_activate`: a notified
`Activating` state keeps waiting; `Activated` resolves with success; any
other state resolves with an error naming the state. -/
def resolve_state : ActiveConnectionState → Option (Except Failure Unit)
  | ActiveConnectionState.Activating => none
  | ActiveConnectionState.Activated => some (Except.ok ())
  | s => some (Except.error (Failure.error
      ("Unexpected connection state \"" ++ get_connection_state_str s ++ "\"")))

/-- The one-shot channel discipline: the first notified state that
resolves (`resolve_state` is `some`) supplies the result; the sender is
taken, so every later notification is ignored. `none` means the stream
ended without resolution (the caller's `receiver.await` never completes:
there is no timeout). -/
def process_state_events : List ActiveConnectionState → Option (Except Failure Unit)
  | [] => none
  | s :: rest =>
    match resolve_state s with
    | some result => some result
    | none => process_state_events rest

deriving instance DecidableEq for Except

/-- Result of a wait: whether the state-changed subscription was
installed, and the resolved outcome (`none` = pending forever). -/
structure WaitResult where
  subscribed : Bool
  outcome : Option (Except Failure Unit)
deriving DecidableEq, Repr

/-- `wait_for_connection_to_activate` (src/connection.rs:297), with the
backend's notification stream for this active connection passed
explicitly: if the synchronously read state is already `Activated`,
return success without subscribing; otherwise subscribe and reduce the
stream one-shot. -/
def wait_for_connection_to_activate (conn : ActiveConn)
    (events : List ActiveConnectionState) : WaitResult :=
  if conn.state = ActiveConnectionState.Activated then
    { subscribed := false, outcome := some (Except.ok ()) }
  else
    { subscribed := true, outcome := process_state_events events }

/-! ## Option parsing helpers (src/util.rs) -/

/-- `deserialize_password` (src/util.rs:20), parametrised by the backend's
PSK validity check `utils_wpa_psk_valid` (a function of the external `nm`
crate). Rust `String::len` is byte length; for the ASCII passwords at
issue it coincides with `String.length`. Note the function returns
`Except.ok (some s)` on every success - it never produces `none`. -/
def deserialize_password (utils_wpa_psk_valid : String → Bool)
    (s : String) : Except Failure (Option String) :=
  if s.length > 0 && s.length < 8 then
    Except.error (Failure.error "Password must be 8 chars or longer")
  else if !utils_wpa_psk_valid s then
    Except.error (Failure.error "libnm says your PSK is invalid")
  else
    Except.ok (some s)

/-- Split a character list on a separator character. -/
def splitOnChar (sep : Char) : List Char → List (List Char)
  | [] => [[]]
  | c :: rest =>
    if c = sep then [] :: splitOnChar sep rest
    else
      match splitOnChar sep rest with
      | [] => [[c]]
      | group :: groups => (c :: group) :: groups

/-- Parse a non-empty all-digit character list as a decimal number. -/
def digitsToNat? (cs : List Char) : Option Nat :=
  if cs.isEmpty || !cs.all Char.isDigit then none
  else some (cs.foldl (fun n c => 10 * n + (c.toNat - 48)) 0)

/-- CIDR parser modelling `ipnet::Ipv4Net::from_str` for the inputs this
program feeds it: requires `a.b.c.d/prefix` with all-digit components,
octets ≤ 255 and prefix ≤ 32 (a bare address without a prefix is
rejected). -/
def Ipv4Net_from_str (s : String) : Option Ipv4Net :=
  match splitOnChar '/' s.toList with
  | [addr, plen] =>
    match splitOnChar '.' addr with
    | [a, b, c, d] =>
      match digitsToNat? a, digitsToNat? b, digitsToNat? c, digitsToNat? d,
          digitsToNat? plen with
      | some a, some b, some c, some d, some p =>
        if a ≤ 255 && b ≤ 255 && c ≤ 255 && d ≤ 255 && p ≤ 32 then
          some { a := a, b := b, c := c, d := d, prefix_len := p }
        else none
      | _, _, _, _, _ => none
    | _ => none
  | _ => none

/-! ## Connection profile builders -/

/-- `create_wired_connection` (src/connection.rs:17): a wired connection
whose id and interface name are the wired interface; when `bond_ifname`
is given, the connection is a bond slave with that master. The Rust
function returns `Result` but cannot fail. -/
def create_wired_connection (wired_ifname : String)
    (bond_ifname : Option String) : NMConnection :=
  { setting_connection := some
      { type_ := some SETTING_WIRED_SETTING_NAME
        id := some wired_ifname
        interface_name := some wired_ifname
        master := bond_ifname
        slave_type := bond_ifname.map (fun _ => SETTING_BOND_SETTING_NAME) } }

/-- `BondMode` (src/bond.rs:18). -/
inductive BondMode where
  | RoundRobin
  | ActiveBackup
  | XOR
  | Broadcast
  | DynamicLinkAggregation
  | TransmitLoadBalancing
  | AdaptiveLoadBalancing
deriving DecidableEq, Repr

/-- `BondOpts` (src/bond.rs:30). `slave_ifnames` is a `HashSet` in the
source; it is modelled as the list of its elements in iteration order. -/
structure BondOpts where
  bond_ifname : Option String := none
  bond_mode : BondMode := BondMode.ActiveBackup
  slave_ifnames : List String := []
  ip4_addr : Option String := none
deriving DecidableEq, Repr

/-- `get_bond_mode_str` (src/bond.rs:500): every mode except
`ActiveBackup` hits `todo!()`, which panics with Rust's standard
"not yet implemented" message. -/
def get_bond_mode_str : BondMode → Except Failure String
  | BondMode.ActiveBackup => Except.ok "active-backup"
  | _ => Except.error (Failure.panic "not yet implemented")

/-- The IPv4 settings block shared by the builders: a provided address
must parse and yields the manual method; no address yields the auto
(DHCP) method. -/
def build_ip4_settings (ip4_addr : Option String) : Except Failure SettingIP4Config :=
  match ip4_addr with
  | some addr =>
    match Ipv4Net_from_str addr with
    | none => Except.error (Failure.error "invalid IP address syntax")
    | some ip4_net =>
      Except.ok { method := some SETTING_IP4_CONFIG_METHOD_MANUAL
                  addresses := [ip4_net] }
  | none => Except.ok { method := some SETTING_IP4_CONFIG_METHOD_AUTO }

/-- `create_bond_connection` (src/bond.rs:442): requires a bond interface
name; converts the bond mode to its option string (panicking on
unimplemented modes); sets mode and miimon=100 options; IPv4 manual with
the given address or auto. The two `add_option` calls accept these valid
libnm option names/values. -/
def create_bond_connection (opts : BondOpts) : Except Failure NMConnection :=
  match opts.bond_ifname with
  | none => Except.error (Failure.error "Required bond interface not specified")
  | some ifname =>
    match get_bond_mode_str opts.bond_mode with
    | Except.error f => Except.error f
    | Except.ok bond_mode =>
      match build_ip4_settings opts.ip4_addr with
      | Except.error f => Except.error f
      | Except.ok s_ip4 =>
        Except.ok
          { setting_connection := some
              { type_ := some SETTING_BOND_SETTING_NAME
                id := some ifname
                interface_name := some ifname }
            setting_bond := some { options := [("mode", bond_mode), ("miimon", "100")] }
            setting_ip4 := some s_ip4 }

/-- `AccessPointOpts` (src/access_point.rs:23). -/
structure AccessPointOpts where
  wireless_ifname : Option String := none
  ssid : Option String := none
  password : Option String := none
  ip4_addr : Option String := none
deriving DecidableEq, Repr

/-- `StationOpts` (src/station.rs:20). -/
structure StationOpts where
  wireless_ifname : Option String := none
  ssid : Option String := none
  password : Option String := none
  ip4_addr : Option String := none
deriving DecidableEq, Repr

/-- `impl From<AccessPointOpts> for StationOpts` (src/station.rs:61). -/
def stationOptsOfAccessPointOpts (opts : AccessPointOpts) : StationOpts :=
  { wireless_ifname := opts.wireless_ifname
    ssid := opts.ssid
    password := opts.password
    ip4_addr := opts.ip4_addr }

/-- The wireless-security settings added when a password is present
(shared shape of the AP and STA builders). -/
def build_security (password : Option String) : Option SettingWirelessSecurity :=
  password.map (fun p => { key_mgmt := some "wpa-psk", psk := some p })

/-- `create_access_point_connection` (src/access_point.rs:329): wireless
type with autoconnect false, id and SSID from the required SSID,
interface name required, AP mode, hidden false, optional PSK security,
and manual IPv4 from the given address or `DEFAULT_IP4_ADDR`. -/
def create_access_point_connection (opts : AccessPointOpts) :
    Except Failure NMConnection :=
  match opts.ssid with
  | none => Except.error (Failure.error "Required SSID not specified")
  | some ssid =>
    match opts.wireless_ifname with
    | none => Except.error (Failure.error "Required wireless interface not specified")
    | some ifname =>
      match Ipv4Net_from_str (opts.ip4_addr.getD DEFAULT_IP4_ADDR) with
      | none => Except.error (Failure.error "invalid IP address syntax")
      | some ip4_net =>
        Except.ok
          { setting_connection := some
              { type_ := some SETTING_WIRELESS_SETTING_NAME
                autoconnect := false
                id := some ssid
                interface_name := some ifname }
            setting_wireless := some
              { hidden := false
                mode := some SETTING_WIRELESS_MODE_AP
                ssid := some ssid }
            setting_wireless_security := build_security opts.password
            setting_ip4 := some
              { method := some SETTING_IP4_CONFIG_METHOD_MANUAL
                addresses := [ip4_net] } }

/-- `create_sta_connection` (src/station.rs:159): wireless type, id and
SSID from the required SSID, interface name required, infrastructure
mode, optional PSK security, and IPv4 manual-with-address or auto. -/
def create_sta_connection (opts : StationOpts) : Except Failure NMConnection :=
  match opts.ssid with
  | none => Except.error (Failure.error "Required SSID not specified")
  | some ssid =>
    match opts.wireless_ifname with
    | none => Except.error (Failure.error "Required wireless interface not specified")
    | some ifname =>
      match build_ip4_settings opts.ip4_addr with
      | Except.error f => Except.error f
      | Except.ok s_ip4 =>
        Except.ok
          { setting_connection := some
              { type_ := some SETTING_WIRELESS_SETTING_NAME
                id := some ssid
                interface_name := some ifname }
            setting_wireless := some
              { mode := some SETTING_WIRELESS_MODE_INFRA
                ssid := some ssid }
            setting_wireless_security := build_security opts.password
            setting_ip4 := some s_ip4 }

/-! ## Reconciler / orchestrator (src/bond.rs, src/access_point.rs)

The backend's own responses are the parts this program does not control.
They are collected in `Env`:
* whether (and in which state) NetworkManager auto-activates a just-added
  bond connection (the program never activates the bond itself; the bond
  has autoconnect on),
* the state carried by the `ActiveConnection` returned from an explicit
  `activate_connection_future` call, and
* the state-change notification stream delivered to the activation wait.

Backend mutations are modelled deterministically: `add_connection_future`
appends to the stored list, `activate_connection_future` appends an
active entry, `deactivate_connection_future` and `delete_future` erase
the entry. -/

structure Env where
  bond_auto_activate : Option ActiveConnectionState := none
  activate_state : ActiveConnectionState := ActiveConnectionState.Activating
  events : List ActiveConnectionState := []
deriving DecidableEq, Repr

/-- The per-slave loop of `create_bond` (src/bond.rs:122-154): for each
slave interface, deactivate any active standalone wired connection on it
(and `continue`); otherwise search with the reserved empty-string master
for an active slave wired connection on it and abort with an error when
one exists. Returns the failure (if any) and the backend state reached. -/
def deactivate_slaves : List String → Backend → Option Failure × Backend
  | [], st => (none, st)
  | slave_ifname :: rest, st =>
    match get_active_connection DeviceType.Ethernet
        (create_wired_connection slave_ifname none) st.active with
    | some c =>
      deactivate_slaves rest { st with active := st.active.erase c }
    | none =>
      match get_active_connection DeviceType.Ethernet
          (create_wired_connection slave_ifname (some "")) st.active with
      | some _ =>
        (some (Failure.error
          ("Found existing slave wired connection with ifname \"" ++ slave_ifname
            ++ "\" matching desired slave ifname")), st)
      | none => deactivate_slaves rest st

/-- The device-existence check of `create_bond` (src/bond.rs:157-169):
the first slave interface without a backing device, if any. -/
def find_missing_device (devices : List String) : List String → Option String
  | [] => none
  | slave_ifname :: rest =>
    if devices.contains slave_ifname then find_missing_device devices rest
    else some slave_ifname

/-- The slave add-and-activate loop of `create_bond` (src/bond.rs:178-197):
for each slave interface build its wired-slave profile, add it, and
activate it against its device. -/
def add_and_activate_slaves (env : Env) (bond_ifname : String) :
    List String → Backend → Backend
  | [], st => st
  | slave_ifname :: rest, st =>
    let wired_conn := create_wired_connection slave_ifname (some bond_ifname)
    add_and_activate_slaves env bond_ifname rest
      { st with
        connections := st.connections ++ [wired_conn]
        active := st.active ++ [{ conn := some wired_conn, state := env.activate_state }] }

/-- The bond add step of `create_bond` (src/bond.rs:174-175):
`add_connection_future` appends the bond connection; with autoconnect on,
NetworkManager may then activate it on its own - whether and in which
state is the backend's choice, taken from `env.bond_auto_activate`. -/
def add_bond_connection (env : Env) (bond_conn : NMConnection) (st : Backend) : Backend :=
  { st with
    connections := st.connections ++ [bond_conn]
    active := st.active ++
      (match env.bond_auto_activate with
       | some s => [{ conn := some bond_conn, state := s }]
       | none => []) }

/-- The final step of `create_bond` (src/bond.rs:199-208): resolve the
bond's active connection (error when absent) and drive it through the
activation wait. -/
def resolve_and_wait_bond (env : Env) (bond_ifname : String)
    (bond_conn : NMConnection) (st : Backend) :
    Option (Except Failure Unit) × Backend :=
  match get_active_connection DeviceType.Bond bond_conn st.active with
  | none =>
    (some (Except.error (Failure.error
      ("Bond connection \"" ++ bond_ifname ++ "\" not active"))), st)
  | some bond_active_conn =>
    match (wait_for_connection_to_activate bond_active_conn env.events).outcome with
    | none => (none, st)
    | some res => (some res, st)

/-- `create_bond` (src/bond.rs:85). Result `none` models the program
hanging forever in the activation wait (no timeout exists). The backend
state returned reflects every mutation issued before the return. -/
def create_bond (env : Env) (opts : BondOpts) (st : Backend) :
    Option (Except Failure Unit) × Backend :=
  match opts.bond_ifname with
  | none => (some (Except.error (Failure.error "Required bond interface not specified")), st)
  | some bond_ifname =>
    if opts.slave_ifnames.isEmpty then
      (some (Except.error (Failure.error
        "One or more slave interfaces required to create a bond connection")), st)
    else if opts.slave_ifnames.any (fun c => c.isEmpty) then
      (some (Except.error (Failure.error
        "Empty string is not a valid slave interface name")), st)
    else
      match create_bond_connection opts with
      | Except.error f => (some (Except.error f), st)
      | Except.ok bond_conn =>
        if (get_connection DeviceType.Bond bond_conn st.connections).isSome then
          (some (Except.error (Failure.error "Bond connection already exists, quitting...")), st)
        else
          match deactivate_slaves opts.slave_ifnames st with
          | (some f, st1) => (some (Except.error f), st1)
          | (none, st1) =>
            match find_missing_device st1.devices opts.slave_ifnames with
            | some slave_ifname =>
              (some (Except.error (Failure.error
                ("Wired device \"" ++ slave_ifname ++ "\" does not exist, quitting..."))), st1)
            | none =>
              resolve_and_wait_bond env bond_ifname bond_conn
                (add_and_activate_slaves env bond_ifname opts.slave_ifnames
                  (add_bond_connection env bond_conn st1))

/-- The inline activation wait of `create_access_point`
(src/access_point.rs:135-162): same one-shot reduction, but without the
already-`Activated` short-circuit and with a state-less error message. -/
def resolve_state_ap : ActiveConnectionState → Option (Except Failure Unit)
  | ActiveConnectionState.Activating => none
  | ActiveConnectionState.Activated => some (Except.ok ())
  | _ => some (Except.error (Failure.error "Unexpected connection state"))

def process_state_events_ap : List ActiveConnectionState → Option (Except Failure Unit)
  | [] => none
  | s :: rest =>
    match resolve_state_ap s with
    | some result => some result
    | none => process_state_events_ap rest

/-- The deactivate-when-active pattern (`match get_active_connection
{ Some => deactivate, None => log }`) shared by the orchestrators. -/
def deactivate_if_active (device_type : DeviceType) (conn : NMConnection)
    (st : Backend) : Backend :=
  match get_active_connection device_type conn st.active with
  | some c => { st with active := st.active.erase c }
  | none => st

/-- The add-and-activate step of `create_access_point`
(src/access_point.rs:127-132). -/
def add_and_activate_ap (env : Env) (ap_conn : NMConnection) (st : Backend) : Backend :=
  { st with
    connections := st.connections ++ [ap_conn]
    active := st.active ++ [{ conn := some ap_conn, state := env.activate_state }] }

/-- The device check, add, activate and inline wait tail of
`create_access_point` (src/access_point.rs:116-167). -/
def ap_check_device_and_activate (env : Env) (wireless_ifname : String)
    (ap_conn : NMConnection) (st : Backend) :
    Option (Except Failure Unit) × Backend :=
  if !st.devices.contains wireless_ifname then
    (some (Except.error (Failure.error
      ("Wireless device \"" ++ wireless_ifname ++ "\" does not exist, quitting..."))), st)
  else
    match process_state_events_ap env.events with
    | none => (none, add_and_activate_ap env ap_conn st)
    | some res => (some res, add_and_activate_ap env ap_conn st)

/-- `create_access_point` (src/access_point.rs:71). Result `none` models
the un-timed activation wait hanging forever. -/
def create_access_point (env : Env) (opts : AccessPointOpts) (st : Backend) :
    Option (Except Failure Unit) × Backend :=
  match opts.wireless_ifname with
  | none => (some (Except.error (Failure.error "Required wireless interface not specified")), st)
  | some wireless_ifname =>
    match opts.ssid with
    | none => (some (Except.error (Failure.error "Required SSID not specified")), st)
    | some _ =>
      match create_access_point_connection opts with
      | Except.error f => (some (Except.error f), st)
      | Except.ok ap_conn =>
        if (get_connection DeviceType.Wifi ap_conn st.connections).isSome then
          (some (Except.error (Failure.error
            "Access point connection already exists, quitting...")), st)
        else
          match create_sta_connection (stationOptsOfAccessPointOpts opts) with
          | Except.error f => (some (Except.error f), st)
          | Except.ok sta_conn =>
            ap_check_device_and_activate env wireless_ifname ap_conn
              (deactivate_if_active DeviceType.Wifi sta_conn st)

/-- The slave-ifname enumeration of `delete_bond` (src/bond.rs:260-274):
interface names of the bond's current slave connections (entries without
settings or interface name are logged and skipped; a failed enumeration
leaves the list empty). -/
def collect_ifnames : List NMConnection → List String
  | [] => []
  | conn :: rest =>
    match conn.setting_connection with
    | some setting =>
      match setting.interface_name with
      | some slave_ifname => slave_ifname :: collect_ifnames rest
      | none => collect_ifnames rest
    | none => collect_ifnames rest

def enumerate_slave_ifnames (connections : List NMConnection)
    (bond_ifname : String) : List String :=
  match get_slave_connections bond_ifname DeviceType.Ethernet connections with
  | some slave_conns => collect_ifnames slave_conns
  | none => []

/-- The slave-deletion loop of `delete_bond` (src/bond.rs:277-297): a
user-specified slave interface not among the enumerated slaves of this
bond is logged and skipped (its stored connection is left untouched);
otherwise its wired connection is looked up and deleted when found
(logged and skipped when not). -/
def delete_slaves_loop (bond_ifname : String) (slave_ifnames : List String) :
    List String → Backend → Backend
  | [], st => st
  | slave_ifname :: rest, st =>
    if !slave_ifnames.contains slave_ifname then
      delete_slaves_loop bond_ifname slave_ifnames rest st
    else
      let wired_conn := create_wired_connection slave_ifname (some bond_ifname)
      match get_connection DeviceType.Ethernet wired_conn st.connections with
      | some c =>
        delete_slaves_loop bond_ifname slave_ifnames rest
          { st with connections := st.connections.erase c }
      | none => delete_slaves_loop bond_ifname slave_ifnames rest st

/-- The slave cleanup of `delete_bond` (src/bond.rs:260-299), run on the
state after the bond connection was deactivated and deleted: enumerate
the bond's remaining slave connections and run the guarded deletion loop
over the user-specified slave interfaces; this phase cannot fail. -/
def delete_bond_slaves_phase (opts : BondOpts) (bond_ifname : String)
    (st : Backend) : Except Failure Unit × Backend :=
  (Except.ok (),
    delete_slaves_loop bond_ifname (enumerate_slave_ifnames st.connections bond_ifname)
      opts.slave_ifnames st)

/-- `delete_bond` (src/bond.rs:212): require the bond to exist, deactivate
it when active, delete it, then enumerate its slave connections
(from the post-deletion stored list, as in the source) and delete the
user-specified slaves that are confirmed among them. -/
def delete_bond (opts : BondOpts) (st : Backend) : Except Failure Unit × Backend :=
  match opts.bond_ifname with
  | none => (Except.error (Failure.error "Required bond interface not specified"), st)
  | some bond_ifname =>
    if opts.slave_ifnames.any (fun c => c.isEmpty) then
      (Except.error (Failure.error "Empty string is not a valid slave interface name"), st)
    else
      match create_bond_connection opts with
      | Except.error f => (Except.error f, st)
      | Except.ok bond_conn =>
        match get_connection DeviceType.Bond bond_conn st.connections with
        | none =>
          (Except.error (Failure.error
            ("Required bond connection \"" ++ bond_ifname ++ "\" does not exist, quitting...")), st)
        | some bond_remote_conn =>
          delete_bond_slaves_phase opts bond_ifname
            { deactivate_if_active DeviceType.Bond bond_conn st with
              connections :=
                (deactivate_if_active DeviceType.Bond bond_conn st).connections.erase
                  bond_remote_conn }

/-! ## Helper lemmas about the search loops and matchers -/

theorem get_connection_loop_some (pred : NMConnection → NMConnection → Bool)
    (conn m : NMConnection) (l : List NMConnection) :
    get_connection_loop pred conn l (some m) = some m := by
  induction l with
  | nil => rfl
  | cons c rest ih =>
    unfold get_connection_loop
    cases hci : c.interface_name <;> simp [ih]

theorem matching_bond_needs_ifname (conn c : NMConnection) (i : String)
    (h : conn.interface_name = some i) (hc : c.interface_name = none) :
    matching_bond_connection conn c = false := by
  unfold matching_bond_connection
  rw [h, hc]
  repeat' split
  all_goals simp_all

theorem matching_wired_needs_ifname (conn c : NMConnection) (i : String)
    (h : conn.interface_name = some i) (hc : c.interface_name = none) :
    matching_wired_connection conn c = false := by
  unfold matching_wired_connection
  rw [h, hc]
  repeat' split
  all_goals simp_all

theorem matching_wifi_needs_ifname (conn c : NMConnection) (i : String)
    (h : conn.interface_name = some i) (hc : c.interface_name = none) :
    matching_wifi_connection conn c = false := by
  unfold matching_wifi_connection
  rw [h, hc]
  repeat' split
  all_goals simp_all

theorem get_connection_loop_eq_find (pred : NMConnection → NMConnection → Bool)
    (conn : NMConnection) (l : List NMConnection)
    (hpred : ∀ c, c.interface_name = none → pred conn c = false) :
    get_connection_loop pred conn l none = l.find? (pred conn) := by
  induction l with
  | nil => rfl
  | cons c rest ih =>
    unfold get_connection_loop
    cases hci : c.interface_name with
    | none =>
      rw [List.find?, hpred c hci]
      exact ih
    | some _ =>
      by_cases hp : pred conn c = true
      · simp [hp, get_connection_loop_some, List.find?]
      · simp only [Bool.not_eq_true] at hp
        simp [hp, List.find?, ih]

/-! Setters mirroring the repository tests' use of
`s_connection.set_interface_name`, `s_wireless.set_mode` and
`s_wireless.set_ssid` followed by re-adding the setting. -/

def set_interface_name (c : NMConnection) (v : Option String) : NMConnection :=
  { c with setting_connection :=
      c.setting_connection.map fun s => { s with interface_name := v } }

def set_wireless_mode (c : NMConnection) (v : Option String) : NMConnection :=
  { c with setting_wireless := c.setting_wireless.map fun s => { s with mode := v } }

def set_wireless_ssid (c : NMConnection) (v : Option String) : NMConnection :=
  { c with setting_wireless := c.setting_wireless.map fun s => { s with ssid := v } }

theorem bond_ifname_wildcard (d c : NMConnection) (v w : Option String)
    (h : d.interface_name = none) :
    matching_bond_connection d (set_interface_name c v)
      = matching_bond_connection d (set_interface_name c w) := by
  cases hdc : d.setting_connection with
  | none => simp [matching_bond_connection, hdc]
  | some ds =>
    have hdi : ds.interface_name = none := by
      simpa [NMConnection.interface_name, hdc] using h
    cases hcc : c.setting_connection with
    | none => simp [matching_bond_connection, set_interface_name, hcc]
    | some cs =>
      simp [matching_bond_connection, set_interface_name, hcc, hdc,
        NMConnection.interface_name, hdi]

theorem wired_ifname_wildcard (d c : NMConnection) (v w : Option String)
    (h : d.interface_name = none) :
    matching_wired_connection d (set_interface_name c v)
      = matching_wired_connection d (set_interface_name c w) := by
  cases hdc : d.setting_connection with
  | none => simp [matching_wired_connection, hdc]
  | some ds =>
    have hdi : ds.interface_name = none := by
      simpa [NMConnection.interface_name, hdc] using h
    cases hcc : c.setting_connection with
    | none => simp [matching_wired_connection, set_interface_name, hcc]
    | some cs =>
      simp [matching_wired_connection, matching_wired_connection.wired_master_check,
        wired_slave_type_check, set_interface_name, hcc, hdc,
        NMConnection.interface_name, hdi]

theorem wifi_ifname_wildcard (d c : NMConnection) (v w : Option String)
    (h : d.interface_name = none) :
    matching_wifi_connection d (set_interface_name c v)
      = matching_wifi_connection d (set_interface_name c w) := by
  cases hdc : d.setting_connection with
  | none => simp [matching_wifi_connection, hdc]
  | some ds =>
    have hdi : ds.interface_name = none := by
      simpa [NMConnection.interface_name, hdc] using h
    cases hcc : c.setting_connection with
    | none => simp [matching_wifi_connection, set_interface_name, hcc]
    | some cs =>
      simp [matching_wifi_connection, matching_wifi_connection.wifi_wireless_check,
        matching_wifi_connection.wifi_ssid_check, set_interface_name, hcc, hdc,
        NMConnection.interface_name, hdi]

theorem wifi_mode_wildcard (d c : NMConnection) (v w : Option String)
    (h : (d.setting_wireless.bind fun s => s.mode) = none) :
    matching_wifi_connection d (set_wireless_mode c v)
      = matching_wifi_connection d (set_wireless_mode c w) := by
  cases hdw : d.setting_wireless with
  | none =>
    simp [matching_wifi_connection, matching_wifi_connection.wifi_wireless_check,
      set_wireless_mode, NMConnection.interface_name, hdw]
  | some ds =>
    have hdm : ds.mode = none := by simpa [hdw] using h
    cases hcw : c.setting_wireless with
    | none =>
      simp [matching_wifi_connection, matching_wifi_connection.wifi_wireless_check,
        set_wireless_mode, NMConnection.interface_name, hcw]
    | some cs =>
      simp [matching_wifi_connection, matching_wifi_connection.wifi_wireless_check,
        matching_wifi_connection.wifi_ssid_check, set_wireless_mode,
        NMConnection.interface_name, hdw, hcw, hdm]

theorem wifi_ssid_wildcard (d c : NMConnection) (v w : Option String)
    (h : (d.setting_wireless.bind fun s => s.ssid) = none) :
    matching_wifi_connection d (set_wireless_ssid c v)
      = matching_wifi_connection d (set_wireless_ssid c w) := by
  cases hdw : d.setting_wireless with
  | none =>
    simp [matching_wifi_connection, matching_wifi_connection.wifi_wireless_check,
      set_wireless_ssid, NMConnection.interface_name, hdw]
  | some ds =>
    have hds : ds.ssid = none := by simpa [hdw] using h
    cases hcw : c.setting_wireless with
    | none =>
      simp [matching_wifi_connection, matching_wifi_connection.wifi_wireless_check,
        set_wireless_ssid, NMConnection.interface_name, hcw]
    | some cs =>
      simp [matching_wifi_connection, matching_wifi_connection.wifi_wireless_check,
        matching_wifi_connection.wifi_ssid_check, set_wireless_ssid,
        NMConnection.interface_name, hdw, hcw, hds]

theorem bond_ifname_eq_of_match (d c : NMConnection) (a b : String)
    (h1 : d.interface_name = some a) (h2 : c.interface_name = some b)
    (hm : matching_bond_connection d c = true) : a = b := by
  unfold matching_bond_connection at hm
  rw [h1, h2] at hm
  repeat' split at hm
  all_goals simp_all

theorem wired_ifname_eq_of_match (d c : NMConnection) (a b : String)
    (h1 : d.interface_name = some a) (h2 : c.interface_name = some b)
    (hm : matching_wired_connection d c = true) : a = b := by
  unfold matching_wired_connection at hm
  rw [h1, h2] at hm
  repeat' split at hm
  all_goals simp_all

theorem wifi_ifname_eq_of_match (d c : NMConnection) (a b : String)
    (h1 : d.interface_name = some a) (h2 : c.interface_name = some b)
    (hm : matching_wifi_connection d c = true) : a = b := by
  unfold matching_wifi_connection at hm
  rw [h1, h2] at hm
  repeat' split at hm
  all_goals simp_all

theorem wifi_mode_eq_of_match (d c : NMConnection) (a b : String)
    (h1 : (d.setting_wireless.bind fun s => s.mode) = some a)
    (h2 : (c.setting_wireless.bind fun s => s.mode) = some b)
    (hm : matching_wifi_connection d c = true) : a = b := by
  cases hdw : d.setting_wireless with
  | none => rw [hdw] at h1; simp at h1
  | some ds =>
    cases hcw : c.setting_wireless with
    | none => rw [hcw] at h2; simp at h2
    | some cs =>
      rw [hdw] at h1
      rw [hcw] at h2
      simp at h1 h2
      unfold matching_wifi_connection matching_wifi_connection.wifi_wireless_check at hm
      simp only [hdw, hcw, h1, h2] at hm
      repeat' split at hm
      all_goals simp_all

theorem wifi_ssid_eq_of_match (d c : NMConnection) (a b : String)
    (h1 : (d.setting_wireless.bind fun s => s.ssid) = some a)
    (h2 : (c.setting_wireless.bind fun s => s.ssid) = some b)
    (hm : matching_wifi_connection d c = true) : a = b := by
  cases hdw : d.setting_wireless with
  | none => rw [hdw] at h1; simp at h1
  | some ds =>
    cases hcw : c.setting_wireless with
    | none => rw [hcw] at h2; simp at h2
    | some cs =>
      rw [hdw] at h1
      rw [hcw] at h2
      simp at h1 h2
      unfold matching_wifi_connection matching_wifi_connection.wifi_wireless_check
        matching_wifi_connection.wifi_ssid_check at hm
      simp only [hdw, hcw, h1, h2] at hm
      repeat' split at hm
      all_goals simp_all

/-! ## Theorems -/

/-- C1 (counterexample): the claim says a desired wired profile whose
master is the sentinel string "ANY" matches any candidate that has some
master, all other compared fields matching. On the code it is false: with
desired master "ANY" and candidate master "bond7" (identical interface
names, types, ids, and slave types), the wired matching predicate
rejects the candidate - the code's reserved sentinel is the empty
string, not "ANY". -/
theorem wired_master_any_sentinel_rejected :
    matching_wired_connection (create_wired_connection "eth0" (some "ANY"))
      (create_wired_connection "eth0" (some "bond7")) = false := by
  decide

/-- C1 (amended): the wired master wildcard sentinel is the empty string
`""`: a desired wired profile with master `""` accepts every candidate
that has some master (all other compared fields matching) and
short-circuits `true` without comparing slave types (the slave types
below are arbitrary, including mismatched ones); for any other desired
master string the candidate's master must be string-equal for the match
to succeed. -/
theorem wired_master_empty_sentinel
    (d_id c_id ifname m cm : String) (dst cst : Option String)
    (hm : m ≠ "") :
    (matching_wired_connection
        { setting_connection := some
            { id := some d_id, type_ := some SETTING_WIRED_SETTING_NAME,
              interface_name := some ifname, master := some "", slave_type := dst } }
        { setting_connection := some
            { id := some c_id, type_ := some SETTING_WIRED_SETTING_NAME,
              interface_name := some ifname, master := some cm, slave_type := cst } }
      = true)
    ∧ (matching_wired_connection
        { setting_connection := some
            { id := some d_id, type_ := some SETTING_WIRED_SETTING_NAME,
              interface_name := some ifname, master := some m, slave_type := dst } }
        { setting_connection := some
            { id := some c_id, type_ := some SETTING_WIRED_SETTING_NAME,
              interface_name := some ifname, master := some cm, slave_type := cst } }
        = true → cm = m) := by
  constructor
  · simp [matching_wired_connection, NMConnection.interface_name,
      matching_wired_connection.wired_master_check]
  · intro h
    simp [matching_wired_connection, NMConnection.interface_name,
      matching_wired_connection.wired_master_check, hm] at h
    exact h.1.symm

/-- C1 witness: the amended theorem applied at concrete strings. -/
theorem wired_master_empty_sentinel_witness :
    matching_wired_connection
        { setting_connection := some
            { id := some "eth0", type_ := some SETTING_WIRED_SETTING_NAME,
              interface_name := some "eth0", master := some "",
              slave_type := some "bond" } }
        { setting_connection := some
            { id := some "eth0", type_ := some SETTING_WIRED_SETTING_NAME,
              interface_name := some "eth0", master := some "bond7",
              slave_type := some "team" } }
      = true :=
  (wired_master_empty_sentinel "eth0" "eth0" "eth0" "bond0" "bond7"
    (some "bond") (some "team") (by decide)).1

/-- C4 (counterexample): the claim says building a bond profile with a
mode other than active-backup returns an "unsupported mode" error and
never panics. On the code it is false: with mode round-robin (and a bond
interface present) `create_bond_connection` reaches `get_bond_mode_str`'s
`todo!()` and panics with Rust's "not yet implemented" message instead of
returning an error. -/
theorem unsupported_bond_mode_panics_concrete :
    create_bond_connection
        { bond_ifname := some "bond0", bond_mode := BondMode.RoundRobin,
          slave_ifnames := ["eth0"], ip4_addr := none }
      = Except.error (Failure.panic "not yet implemented") := by
  decide

/-- C4 (amended): for every bond mode other than active-backup, building
the bond connection profile (with the bond interface present, so the
mode conversion is reached) panics via `todo!()` ("not yet implemented")
at connection-build time rather than returning an "unsupported mode"
error. -/
theorem unsupported_bond_mode_panics (opts : BondOpts) (ifname : String)
    (hif : opts.bond_ifname = some ifname)
    (hmode : opts.bond_mode ≠ BondMode.ActiveBackup) :
    create_bond_connection opts = Except.error (Failure.panic "not yet implemented") := by
  unfold create_bond_connection
  rw [hif]
  cases h : opts.bond_mode <;> simp_all [get_bond_mode_str]

/-- C4 witness: the amended theorem applied at a concrete option set. -/
theorem unsupported_bond_mode_panics_witness :
    create_bond_connection
        { bond_ifname := some "bond1", bond_mode := BondMode.Broadcast,
          slave_ifnames := ["eth1"], ip4_addr := none }
      = Except.error (Failure.panic "not yet implemented") :=
  unsupported_bond_mode_panics
    { bond_ifname := some "bond1", bond_mode := BondMode.Broadcast,
      slave_ifnames := ["eth1"], ip4_addr := none }
    "bond1" rfl (by decide)

/-- C5 (code bug): the claim (and the repository's own `empty_password`
tests) say an empty-string password succeeds and is normalized to "no
password" (`None`). The code cannot do that: whatever the backend's PSK
validity check answers on `""`, `deserialize_password` never returns
`Ok(None)` - it either rejects the empty string (as the real libnm check
does, since it requires at least 8 characters) or would return
`Ok(Some(""))`, a stored empty secret. -/
theorem deserialize_password_empty_never_none (utils_wpa_psk_valid : String → Bool) :
    deserialize_password utils_wpa_psk_valid "" ≠ Except.ok none
    ∧ (utils_wpa_psk_valid "" = false →
        deserialize_password utils_wpa_psk_valid ""
          = Except.error (Failure.error "libnm says your PSK is invalid")) := by
  constructor
  · unfold deserialize_password
    split
    · simp
    · split <;> simp
  · intro h
    simp [deserialize_password, h]

/-- C5 auxiliary witness: the second conjunct applied at the concrete
backend check that rejects short PSKs (as libnm does). -/
theorem deserialize_password_empty_never_none_witness :
    deserialize_password (fun s => decide (8 ≤ s.length)) ""
      = Except.error (Failure.error "libnm says your PSK is invalid") :=
  (deserialize_password_empty_never_none (fun s => decide (8 ≤ s.length))).2 (by decide)

/-- C9: `wait_for_connection_to_activate` returns success immediately and
without subscribing when the synchronously read state is already
Activated; otherwise it subscribes and resolves at the first notified
state other than Activating - success for Activated, an error for
Deactivating, Deactivated and Unknown - and the notifications after the
resolving one (`rest`, arbitrary below) never influence the result; a
leading Activating notification is skipped. -/
theorem wait_for_activation_one_shot :
    (∀ (conn : ActiveConn) (events : List ActiveConnectionState),
        conn.state = ActiveConnectionState.Activated →
        wait_for_connection_to_activate conn events
          = { subscribed := false, outcome := some (Except.ok ()) })
    ∧ (∀ (conn : ActiveConn) (s : ActiveConnectionState)
          (rest : List ActiveConnectionState),
        conn.state ≠ ActiveConnectionState.Activated →
        s ≠ ActiveConnectionState.Activating →
        wait_for_connection_to_activate conn (s :: rest)
          = { subscribed := true, outcome := resolve_state s })
    ∧ (∀ (conn : ActiveConn) (rest : List ActiveConnectionState),
        conn.state ≠ ActiveConnectionState.Activated →
        wait_for_connection_to_activate conn (ActiveConnectionState.Activating :: rest)
          = wait_for_connection_to_activate conn rest)
    ∧ resolve_state ActiveConnectionState.Activated = some (Except.ok ())
    ∧ (∀ s, s = ActiveConnectionState.Deactivating ∨ s = ActiveConnectionState.Deactivated
          ∨ s = ActiveConnectionState.Unknown →
        resolve_state s = some (Except.error (Failure.error
          ("Unexpected connection state \"" ++ get_connection_state_str s ++ "\"")))) := by
  refine ⟨?_, ?_, ?_, rfl, ?_⟩
  · intro conn events h
    simp [wait_for_connection_to_activate, h]
  · intro conn s rest h hs
    cases s <;> simp_all [wait_for_connection_to_activate, process_state_events, resolve_state]
  · intro conn rest h
    simp [wait_for_connection_to_activate, h, process_state_events, resolve_state]
  · intro s hs
    rcases hs with h | h | h <;> subst h <;> rfl

/-- C9 witness: a connection read in Activating state with a Deactivated
notification followed by a (subsequently ignored) Activated notification
resolves once, with the failure. -/
theorem wait_for_activation_one_shot_witness :
    wait_for_connection_to_activate
        { conn := none, state := ActiveConnectionState.Activating }
        [ActiveConnectionState.Deactivated, ActiveConnectionState.Activated]
      = { subscribed := true,
          outcome := some (Except.error (Failure.error
            "Unexpected connection state \"deactivated\"")) } :=
  wait_for_activation_one_shot.2.1
    { conn := none, state := ActiveConnectionState.Activating }
    ActiveConnectionState.Deactivated [ActiveConnectionState.Activated]
    (by decide) (by decide)

/-- C10: a desired profile without an interface name never finds any
connection through the two search entry points, whatever the backend's
stored and active connection lists hold - even though the underlying
matching predicates treat an absent interface name as a wildcard. -/
theorem search_requires_interface_name (device_type : DeviceType)
    (conn : NMConnection) (connections : List NMConnection)
    (active : List ActiveConn)
    (h : conn.interface_name = none) :
    get_connection device_type conn connections = none
    ∧ get_active_connection device_type conn active = none := by
  constructor
  · unfold get_connection
    rw [h]
  · unfold get_active_connection
    rw [h]

/-- C10 witness: applied to a bond search template without an interface
name over a backend that stores a matching-shaped bond connection. -/
theorem search_requires_interface_name_witness :
    get_connection DeviceType.Bond
        { setting_connection := some
            { id := some "bond0", type_ := some SETTING_BOND_SETTING_NAME,
              interface_name := none } }
        [{ setting_connection := some
            { id := some "bond0", type_ := some SETTING_BOND_SETTING_NAME,
              interface_name := some "bond0" } }]
      = none :=
  (search_requires_interface_name DeviceType.Bond
    { setting_connection := some
        { id := some "bond0", type_ := some SETTING_BOND_SETTING_NAME,
          interface_name := none } }
    [{ setting_connection := some
        { id := some "bond0", type_ := some SETTING_BOND_SETTING_NAME,
          interface_name := some "bond0" } }]
    [] rfl).1

/-- C2: for the bond, wired and wifi matching predicates, an absent
optional field of the desired profile (interface name; for wifi also
wireless mode and SSID) makes the result independent of the candidate's
value in that field; when both profiles carry the field, a successful
match forces the two values to be equal. -/
theorem matching_optional_field_wildcard_and_equality :
    (∀ (d c : NMConnection) (v w : Option String), d.interface_name = none →
        matching_bond_connection d (set_interface_name c v)
          = matching_bond_connection d (set_interface_name c w))
    ∧ (∀ (d c : NMConnection) (v w : Option String), d.interface_name = none →
        matching_wired_connection d (set_interface_name c v)
          = matching_wired_connection d (set_interface_name c w))
    ∧ (∀ (d c : NMConnection) (v w : Option String), d.interface_name = none →
        matching_wifi_connection d (set_interface_name c v)
          = matching_wifi_connection d (set_interface_name c w))
    ∧ (∀ (d c : NMConnection) (v w : Option String),
        (d.setting_wireless.bind fun s => s.mode) = none →
        matching_wifi_connection d (set_wireless_mode c v)
          = matching_wifi_connection d (set_wireless_mode c w))
    ∧ (∀ (d c : NMConnection) (v w : Option String),
        (d.setting_wireless.bind fun s => s.ssid) = none →
        matching_wifi_connection d (set_wireless_ssid c v)
          = matching_wifi_connection d (set_wireless_ssid c w))
    ∧ (∀ (d c : NMConnection) (a b : String), d.interface_name = some a →
        c.interface_name = some b → matching_bond_connection d c = true → a = b)
    ∧ (∀ (d c : NMConnection) (a b : String), d.interface_name = some a →
        c.interface_name = some b → matching_wired_connection d c = true → a = b)
    ∧ (∀ (d c : NMConnection) (a b : String), d.interface_name = some a →
        c.interface_name = some b → matching_wifi_connection d c = true → a = b)
    ∧ (∀ (d c : NMConnection) (a b : String),
        (d.setting_wireless.bind fun s => s.mode) = some a →
        (c.setting_wireless.bind fun s => s.mode) = some b →
        matching_wifi_connection d c = true → a = b)
    ∧ (∀ (d c : NMConnection) (a b : String),
        (d.setting_wireless.bind fun s => s.ssid) = some a →
        (c.setting_wireless.bind fun s => s.ssid) = some b →
        matching_wifi_connection d c = true → a = b) :=
  ⟨bond_ifname_wildcard, wired_ifname_wildcard, wifi_ifname_wildcard,
    wifi_mode_wildcard, wifi_ssid_wildcard,
    bond_ifname_eq_of_match, wired_ifname_eq_of_match, wifi_ifname_eq_of_match,
    wifi_mode_eq_of_match, wifi_ssid_eq_of_match⟩

/-- C2 witness: the interface-name wildcard conjunct applied to a bond
search template without an interface name against candidates whose
interface names differ. -/
theorem matching_optional_field_wildcard_and_equality_witness :
    matching_bond_connection
        { setting_connection := some
            { id := some "bond0", type_ := some SETTING_BOND_SETTING_NAME,
              interface_name := none } }
        (set_interface_name
          { setting_connection := some
              { id := some "b", type_ := some SETTING_BOND_SETTING_NAME,
                interface_name := some "x" } }
          (some "bond0"))
      = matching_bond_connection
          { setting_connection := some
              { id := some "bond0", type_ := some SETTING_BOND_SETTING_NAME,
                interface_name := none } }
          (set_interface_name
            { setting_connection := some
                { id := some "b", type_ := some SETTING_BOND_SETTING_NAME,
                  interface_name := some "x" } }
            (some "other")) :=
  matching_optional_field_wildcard_and_equality.1
    { setting_connection := some
        { id := some "bond0", type_ := some SETTING_BOND_SETTING_NAME,
          interface_name := none } }
    { setting_connection := some
        { id := some "b", type_ := some SETTING_BOND_SETTING_NAME,
          interface_name := some "x" } }
    (some "bond0") (some "other") rfl

/-- C3: with a desired interface name present and a supported device
type, `get_connection` scans the whole stored-connection list and is
exactly first-match search: it returns the first candidate (in list
order) satisfying the kind-specific predicate, keeps scanning the rest
only for logging, and additional matches beyond the first never change
the returned value nor produce an error (the result type has no error
case). -/
theorem get_connection_scans_first (conn : NMConnection)
    (connections : List NMConnection) (i : String)
    (h : conn.interface_name = some i) :
    get_connection DeviceType.Bond conn connections
        = connections.find? (matching_bond_connection conn)
    ∧ get_connection DeviceType.Ethernet conn connections
        = connections.find? (matching_wired_connection conn)
    ∧ get_connection DeviceType.Wifi conn connections
        = connections.find? (matching_wifi_connection conn) := by
  refine ⟨?_, ?_, ?_⟩
  · unfold get_connection
    rw [h]
    exact get_connection_loop_eq_find _ conn connections
      (fun c hc => matching_bond_needs_ifname conn c i h hc)
  · unfold get_connection
    rw [h]
    exact get_connection_loop_eq_find _ conn connections
      (fun c hc => matching_wired_needs_ifname conn c i h hc)
  · unfold get_connection
    rw [h]
    exact get_connection_loop_eq_find _ conn connections
      (fun c hc => matching_wifi_needs_ifname conn c i h hc)

/-- C3 witness: over a list holding one non-matching connection followed
by two matching duplicates, the search equals `find?` and returns the
first duplicate. -/
theorem get_connection_scans_first_witness :
    get_connection DeviceType.Bond
        { setting_connection := some
            { id := some "bond0", type_ := some SETTING_BOND_SETTING_NAME,
              interface_name := some "bond0" } }
        [{ setting_connection := some
            { id := some "other", type_ := some SETTING_BOND_SETTING_NAME,
              interface_name := some "bond1" } },
         { setting_connection := some
            { id := some "first", type_ := some SETTING_BOND_SETTING_NAME,
              interface_name := some "bond0" } },
         { setting_connection := some
            { id := some "dup", type_ := some SETTING_BOND_SETTING_NAME,
              interface_name := some "bond0" } }]
      = some ({ setting_connection :=
                  some { id := some "first",
                         type_ := some SETTING_BOND_SETTING_NAME,
                         interface_name := some "bond0" } } : NMConnection) :=
  ((get_connection_scans_first
    { setting_connection := some
        { id := some "bond0", type_ := some SETTING_BOND_SETTING_NAME,
          interface_name := some "bond0" } }
    [{ setting_connection := some
        { id := some "other", type_ := some SETTING_BOND_SETTING_NAME,
          interface_name := some "bond1" } },
     { setting_connection := some
        { id := some "first", type_ := some SETTING_BOND_SETTING_NAME,
          interface_name := some "bond0" } },
     { setting_connection := some
        { id := some "dup", type_ := some SETTING_BOND_SETTING_NAME,
          interface_name := some "bond0" } }]
    "bond0" rfl).1).trans (by decide)

/-! ## Helper lemmas for the orchestrator theorems -/

theorem deactivate_slaves_connections (l : List String) (st : Backend) :
    (deactivate_slaves l st).2.connections = st.connections := by
  induction l generalizing st with
  | nil => rfl
  | cons s rest ih =>
    unfold deactivate_slaves
    cases h1 : get_active_connection DeviceType.Ethernet
        (create_wired_connection s none) st.active with
    | some c => simpa using ih _
    | none =>
      cases h2 : get_active_connection DeviceType.Ethernet
          (create_wired_connection s (some "")) st.active with
      | some c => rfl
      | none => simpa using ih _

theorem add_and_activate_slaves_connections (env : Env) (b : String)
    (l : List String) (st : Backend) :
    (add_and_activate_slaves env b l st).connections
      = st.connections ++ l.map (fun s => create_wired_connection s (some b)) := by
  induction l generalizing st with
  | nil => simp [add_and_activate_slaves]
  | cons s rest ih =>
    unfold add_and_activate_slaves
    rw [ih]
    simp

theorem create_bond_connection_ok (opts : BondOpts) (bc : NMConnection)
    (h : create_bond_connection opts = Except.ok bc) :
    ∃ ifname s_ip4, opts.bond_ifname = some ifname
      ∧ bc = { setting_connection := some
                 { type_ := some SETTING_BOND_SETTING_NAME, id := some ifname,
                   interface_name := some ifname }
               setting_bond := some { options := [("mode", "active-backup"), ("miimon", "100")] }
               setting_ip4 := some s_ip4 } := by
  unfold create_bond_connection at h
  cases hbi : opts.bond_ifname with
  | none => rw [hbi] at h; simp at h
  | some ifname =>
    rw [hbi] at h
    cases hm : get_bond_mode_str opts.bond_mode with
    | error f => rw [hm] at h; simp at h
    | ok mode_str =>
      rw [hm] at h
      have hmode : mode_str = "active-backup" := by
        cases hbm : opts.bond_mode <;> rw [hbm] at hm <;> simp_all [get_bond_mode_str]
      cases hip : build_ip4_settings opts.ip4_addr with
      | error f => rw [hip] at h; simp at h
      | ok s_ip4 =>
        rw [hip] at h
        simp at h
        exact ⟨ifname, s_ip4, rfl, by rw [← h, hmode]⟩

theorem matching_bond_self (ifname : String) (s_bond : Option SettingBond)
    (s_ip4 : Option SettingIP4Config) :
    matching_bond_connection
      { setting_connection := some
          { type_ := some SETTING_BOND_SETTING_NAME, id := some ifname,
            interface_name := some ifname }
        setting_bond := s_bond, setting_ip4 := s_ip4 }
      { setting_connection := some
          { type_ := some SETTING_BOND_SETTING_NAME, id := some ifname,
            interface_name := some ifname }
        setting_bond := s_bond, setting_ip4 := s_ip4 } = true := by
  simp [matching_bond_connection, NMConnection.interface_name]

theorem get_connection_loop_isSome (pred : NMConnection → NMConnection → Bool)
    (conn : NMConnection) (l : List NMConnection) (c : NMConnection)
    (hmem : c ∈ l) (hcif : c.interface_name.isSome) (hp : pred conn c = true) :
    (get_connection_loop pred conn l none).isSome = true := by
  induction l with
  | nil => simp at hmem
  | cons a rest ih =>
    unfold get_connection_loop
    cases hai : a.interface_name with
    | none =>
      rcases List.mem_cons.mp hmem with rfl | hmem2
      · rw [hai] at hcif; simp at hcif
      · exact ih hmem2
    | some _ =>
      by_cases hpa : pred conn a = true
      · simp [hpa, get_connection_loop_some]
      · simp only [Bool.not_eq_true] at hpa
        rcases List.mem_cons.mp hmem with rfl | hmem2
        · rw [hp] at hpa; simp at hpa
        · simp [hpa]
          exact ih hmem2

theorem get_connection_isSome_of_mem (dt : DeviceType)
    (pred : NMConnection → NMConnection → Bool) (conn : NMConnection)
    (conns : List NMConnection) (c : NMConnection) (i : String)
    (hdt : matcher_for dt = some pred) (hi : conn.interface_name = some i)
    (hmem : c ∈ conns) (hcif : c.interface_name.isSome) (hp : pred conn c = true) :
    (get_connection dt conn conns).isSome = true := by
  unfold get_connection
  rw [hi, hdt]
  exact get_connection_loop_isSome pred conn conns c hmem hcif hp

theorem create_access_point_connection_ok (opts : AccessPointOpts) (c : NMConnection)
    (h : create_access_point_connection opts = Except.ok c) :
    ∃ ssid ifname net, opts.ssid = some ssid ∧ opts.wireless_ifname = some ifname
      ∧ c = { setting_connection := some
                { type_ := some SETTING_WIRELESS_SETTING_NAME, autoconnect := false,
                  id := some ssid, interface_name := some ifname }
              setting_wireless := some
                { hidden := false, mode := some SETTING_WIRELESS_MODE_AP,
                  ssid := some ssid }
              setting_wireless_security := build_security opts.password
              setting_ip4 := some
                { method := some SETTING_IP4_CONFIG_METHOD_MANUAL,
                  addresses := [net] } } := by
  unfold create_access_point_connection at h
  cases hs : opts.ssid with
  | none => rw [hs] at h; simp at h
  | some ssid =>
    rw [hs] at h
    cases hw : opts.wireless_ifname with
    | none => rw [hw] at h; simp at h
    | some ifname =>
      rw [hw] at h
      cases hip : Ipv4Net_from_str (opts.ip4_addr.getD DEFAULT_IP4_ADDR) with
      | none => rw [hip] at h; simp at h
      | some net =>
        rw [hip] at h
        simp at h
        exact ⟨ssid, ifname, net, rfl, rfl, h.symm⟩

theorem matching_wifi_self_ap (ssid ifname : String)
    (sec : Option SettingWirelessSecurity) (ip4 : Option SettingIP4Config) :
    matching_wifi_connection
      { setting_connection := some
          { type_ := some SETTING_WIRELESS_SETTING_NAME, autoconnect := false,
            id := some ssid, interface_name := some ifname }
        setting_wireless := some
          { hidden := false, mode := some SETTING_WIRELESS_MODE_AP, ssid := some ssid }
        setting_wireless_security := sec
        setting_ip4 := ip4 }
      { setting_connection := some
          { type_ := some SETTING_WIRELESS_SETTING_NAME, autoconnect := false,
            id := some ssid, interface_name := some ifname }
        setting_wireless := some
          { hidden := false, mode := some SETTING_WIRELESS_MODE_AP, ssid := some ssid }
        setting_wireless_security := sec
        setting_ip4 := ip4 } = true := by
  simp [matching_wifi_connection, matching_wifi_connection.wifi_wireless_check,
    matching_wifi_connection.wifi_ssid_check, NMConnection.interface_name]

/-- C6: if a bond (respectively access-point) connection matching the
desired profile already exists in the backend's stored-connection list,
create returns the descriptive conflict error and leaves the backend
state untouched (the conflict check precedes every mutation); hence a
create that succeeded makes the same create fail with the conflict error
on the resulting state - under any backend environment - with the state
again unchanged: never a silent success, never a duplicate. -/
theorem create_no_silent_overwrite :
    (∀ (env : Env) (opts : BondOpts) (st : Backend) (bond_ifname : String)
        (bc : NMConnection),
      opts.bond_ifname = some bond_ifname →
      opts.slave_ifnames.isEmpty = false →
      opts.slave_ifnames.any (fun c => c.isEmpty) = false →
      create_bond_connection opts = Except.ok bc →
      (get_connection DeviceType.Bond bc st.connections).isSome = true →
      create_bond env opts st
        = (some (Except.error (Failure.error "Bond connection already exists, quitting...")), st))
    ∧ (∀ (env env2 : Env) (opts : BondOpts) (st st' : Backend),
      create_bond env opts st = (some (Except.ok ()), st') →
      create_bond env2 opts st'
        = (some (Except.error (Failure.error "Bond connection already exists, quitting...")), st'))
    ∧ (∀ (env : Env) (opts : AccessPointOpts) (st : Backend) (wireless_ifname : String)
        (ac : NMConnection),
      opts.wireless_ifname = some wireless_ifname →
      create_access_point_connection opts = Except.ok ac →
      (get_connection DeviceType.Wifi ac st.connections).isSome = true →
      create_access_point env opts st
        = (some (Except.error (Failure.error "Access point connection already exists, quitting...")), st))
    ∧ (∀ (env env2 : Env) (opts : AccessPointOpts) (st st' : Backend),
      create_access_point env opts st = (some (Except.ok ()), st') →
      create_access_point env2 opts st'
        = (some (Except.error (Failure.error "Access point connection already exists, quitting...")), st')) := by
  refine ⟨?_, ?_, ?_, ?_⟩
  · intro env opts st bond_ifname bc h1 h2 h3 h4 h5
    unfold create_bond
    rw [h1, h4]
    simp [h2, h3, h5]
  · intro env env2 opts st st' h
    unfold create_bond at h
    split at h
    · simp at h
    · rename_i bond_ifname hbi
      split at h
      · simp at h
      · rename_i hempty
        split at h
        · simp at h
        · rename_i hany
          split at h
          · simp at h
          · rename_i bond_conn hcc
            split at h
            · simp at h
            · rename_i hconf
              split at h
              · simp at h
              · rename_i st1 hds
                split at h
                · simp at h
                · rename_i hmd
                  unfold resolve_and_wait_bond at h
                  split at h
                  · simp at h
                  · rename_i ac hga
                    split at h
                    · simp at h
                    · rename_i res hw
                      simp at h
                      obtain ⟨hres, hst⟩ := h
                      obtain ⟨ifname, s_ip4, hbi2, hshape⟩ :=
                        create_bond_connection_ok opts bond_conn hcc
                      have hi : bond_conn.interface_name = some ifname := by
                        rw [hshape]; rfl
                      have hmem : bond_conn ∈ st'.connections := by
                        rw [← hst, add_and_activate_slaves_connections]
                        simp [add_bond_connection]
                      have hconf2 :
                          (get_connection DeviceType.Bond bond_conn st'.connections).isSome
                            = true :=
                        get_connection_isSome_of_mem DeviceType.Bond
                          matching_bond_connection bond_conn st'.connections bond_conn
                          ifname rfl hi hmem (by rw [hi]; rfl)
                          (by rw [hshape]; exact matching_bond_self ifname _ _)
                      have hempty2 : opts.slave_ifnames.isEmpty = false := by
                        simpa using hempty
                      have hany2 : (opts.slave_ifnames.any fun c => c.isEmpty) = false := by
                        simpa using hany
                      unfold create_bond
                      rw [hbi, hcc]
                      simp [hempty2, hany2, hconf2]
  · intro env opts st wireless_ifname ac h1 h2 h3
    unfold create_access_point
    rw [h1, h2]
    obtain ⟨ssid, ifname, net, hs, hw, hshape⟩ := create_access_point_connection_ok opts ac h2
    rw [hs]
    simp [h3]
  · intro env env2 opts st st' h
    unfold create_access_point at h
    split at h
    · simp at h
    · rename_i wireless_ifname hw
      split at h
      · simp at h
      · rename_i ssid hs
        split at h
        · simp at h
        · rename_i ap_conn hcc
          split at h
          · simp at h
          · rename_i hconf
            split at h
            · simp at h
            · rename_i sta_conn hsta
              unfold ap_check_device_and_activate at h
              split at h
              · simp at h
              · rename_i hdev
                split at h
                · simp at h
                · rename_i res hev
                  simp at h
                  obtain ⟨hres, hst⟩ := h
                  obtain ⟨ssid2, ifname2, net, hs2, hw2, hshape⟩ :=
                    create_access_point_connection_ok opts ap_conn hcc
                  have hi : ap_conn.interface_name = some ifname2 := by
                    rw [hshape]; rfl
                  have hmem : ap_conn ∈ st'.connections := by
                    rw [← hst]
                    simp [add_and_activate_ap]
                  have hconf2 :
                      (get_connection DeviceType.Wifi ap_conn st'.connections).isSome = true :=
                    get_connection_isSome_of_mem DeviceType.Wifi
                      matching_wifi_connection ap_conn st'.connections ap_conn
                      ifname2 rfl hi hmem (by rw [hi]; rfl)
                      (by rw [hshape]; exact matching_wifi_self_ap ssid2 ifname2 _ _)
                  unfold create_access_point
                  rw [hw, hs, hcc]
                  simp [hconf2]

/-- C6 witness: a concrete create-twice run - the first create succeeds
on an empty backend and the second fails with the conflict error. -/
theorem create_no_silent_overwrite_witness :
    create_bond
        { bond_auto_activate := some ActiveConnectionState.Activating,
          activate_state := ActiveConnectionState.Activating,
          events := [ActiveConnectionState.Activated] }
        { bond_ifname := some "bond0", bond_mode := BondMode.ActiveBackup,
          slave_ifnames := ["eth0"], ip4_addr := none }
        (create_bond
          { bond_auto_activate := some ActiveConnectionState.Activating,
            activate_state := ActiveConnectionState.Activating,
            events := [ActiveConnectionState.Activated] }
          { bond_ifname := some "bond0", bond_mode := BondMode.ActiveBackup,
            slave_ifnames := ["eth0"], ip4_addr := none }
          { connections := [], active := [], devices := ["eth0"] }).2
      = (some (Except.error (Failure.error "Bond connection already exists, quitting...")),
         (create_bond
          { bond_auto_activate := some ActiveConnectionState.Activating,
            activate_state := ActiveConnectionState.Activating,
            events := [ActiveConnectionState.Activated] }
          { bond_ifname := some "bond0", bond_mode := BondMode.ActiveBackup,
            slave_ifnames := ["eth0"], ip4_addr := none }
          { connections := [], active := [], devices := ["eth0"] }).2) :=
  create_no_silent_overwrite.2.1
    { bond_auto_activate := some ActiveConnectionState.Activating,
      activate_state := ActiveConnectionState.Activating,
      events := [ActiveConnectionState.Activated] }
    { bond_auto_activate := some ActiveConnectionState.Activating,
      activate_state := ActiveConnectionState.Activating,
      events := [ActiveConnectionState.Activated] }
    { bond_ifname := some "bond0", bond_mode := BondMode.ActiveBackup,
      slave_ifnames := ["eth0"], ip4_addr := none }
    { connections := [], active := [], devices := ["eth0"] }
    (create_bond
      { bond_auto_activate := some ActiveConnectionState.Activating,
        activate_state := ActiveConnectionState.Activating,
        events := [ActiveConnectionState.Activated] }
      { bond_ifname := some "bond0", bond_mode := BondMode.ActiveBackup,
        slave_ifnames := ["eth0"], ip4_addr := none }
      { connections := [], active := [], devices := ["eth0"] }).2
    (by decide)

/-- C7: during bond creation, a slave interface with no active standalone
wired connection but with an active slave wired connection (found via the
reserved empty-string wildcard master) makes the per-slave loop abort
immediately with the "Found existing slave wired connection" error, and
`create_bond` then returns that error with the stored-connection list
exactly as it was: the bond connection and the slave wired connections
are never added. -/
theorem create_bond_aborts_on_enslaved_interface :
    (∀ (s : String) (rest : List String) (st : Backend),
      get_active_connection DeviceType.Ethernet
          (create_wired_connection s none) st.active = none →
      (get_active_connection DeviceType.Ethernet
          (create_wired_connection s (some "")) st.active).isSome = true →
      deactivate_slaves (s :: rest) st
        = (some (Failure.error ("Found existing slave wired connection with ifname \"" ++ s
            ++ "\" matching desired slave ifname")), st))
    ∧ (∀ (env : Env) (opts : BondOpts) (st st1 : Backend) (bond_ifname : String)
        (bc : NMConnection) (f : Failure),
      opts.bond_ifname = some bond_ifname →
      opts.slave_ifnames.isEmpty = false →
      (opts.slave_ifnames.any fun c => c.isEmpty) = false →
      create_bond_connection opts = Except.ok bc →
      (get_connection DeviceType.Bond bc st.connections).isSome = false →
      deactivate_slaves opts.slave_ifnames st = (some f, st1) →
      create_bond env opts st = (some (Except.error f), st1)
        ∧ st1.connections = st.connections) := by
  constructor
  · intro s rest st h1 h2
    unfold deactivate_slaves
    rw [h1]
    cases hx : get_active_connection DeviceType.Ethernet
        (create_wired_connection s (some "")) st.active with
    | none => rw [hx] at h2; simp at h2
    | some c => rfl
  · intro env opts st st1 bond_ifname bc f h1 h2 h3 h4 h5 h6
    constructor
    · unfold create_bond
      rw [h1, h4]
      simp [h2, h3, h5, h6]
    · have hconn := deactivate_slaves_connections opts.slave_ifnames st
      rw [h6] at hconn
      exact hconn

/-- C7 witness: one slave interface whose device carries an active
enslaved wired connection - `create_bond` aborts and adds nothing. -/
theorem create_bond_aborts_on_enslaved_interface_witness :
    create_bond
        { bond_auto_activate := none,
          activate_state := ActiveConnectionState.Activating, events := [] }
        { bond_ifname := some "bond0", bond_mode := BondMode.ActiveBackup,
          slave_ifnames := ["eth0"], ip4_addr := none }
        { connections := [],
          active := [{ conn := some (create_wired_connection "eth0" (some "bond9")),
                       state := ActiveConnectionState.Activated }],
          devices := ["eth0"] }
      = (some (Except.error (Failure.error
          "Found existing slave wired connection with ifname \"eth0\" matching desired slave ifname")),
         { connections := [],
           active := [{ conn := some (create_wired_connection "eth0" (some "bond9")),
                        state := ActiveConnectionState.Activated }],
           devices := ["eth0"] }) :=
  (create_bond_aborts_on_enslaved_interface.2
    { bond_auto_activate := none,
      activate_state := ActiveConnectionState.Activating, events := [] }
    { bond_ifname := some "bond0", bond_mode := BondMode.ActiveBackup,
      slave_ifnames := ["eth0"], ip4_addr := none }
    { connections := [],
      active := [{ conn := some (create_wired_connection "eth0" (some "bond9")),
                   state := ActiveConnectionState.Activated }],
      devices := ["eth0"] }
    { connections := [],
      active := [{ conn := some (create_wired_connection "eth0" (some "bond9")),
                   state := ActiveConnectionState.Activated }],
      devices := ["eth0"] }
    "bond0"
    { setting_connection := some
        { type_ := some SETTING_BOND_SETTING_NAME, id := some "bond0",
          interface_name := some "bond0" }
      setting_bond := some { options := [("mode", "active-backup"), ("miimon", "100")] }
      setting_ip4 := some { method := some SETTING_IP4_CONFIG_METHOD_AUTO, addresses := [] } }
    (Failure.error
      "Found existing slave wired connection with ifname \"eth0\" matching desired slave ifname")
    rfl (by decide) (by decide) (by decide) (by decide) (by decide)).1

/-- C8: in bond deletion, a user-specified slave interface that is not
among the enumerated slave interfaces of the bond being deleted is
skipped: the deletion loop treats it exactly like an absent entry (its
stored connection is left undeleted), and once the bond connection has
been found `delete_bond` always returns success - a skipped slave never
makes it fail. -/
theorem delete_bond_skips_unrelated_slave :
    (∀ (bond_ifname : String) (enumerated : List String) (s : String)
        (rest : List String) (st : Backend),
      enumerated.contains s = false →
      delete_slaves_loop bond_ifname enumerated (s :: rest) st
        = delete_slaves_loop bond_ifname enumerated rest st)
    ∧ (∀ (opts : BondOpts) (st : Backend) (bond_ifname : String) (bc brc : NMConnection),
      opts.bond_ifname = some bond_ifname →
      (opts.slave_ifnames.any fun c => c.isEmpty) = false →
      create_bond_connection opts = Except.ok bc →
      get_connection DeviceType.Bond bc st.connections = some brc →
      (delete_bond opts st).1 = Except.ok ()) := by
  constructor
  · intro bond_ifname enumerated s rest st h
    conv_lhs => rw [delete_slaves_loop]
    rw [h]
    simp
  · intro opts st bond_ifname bc brc h1 h2 h3 h4
    unfold delete_bond
    rw [h1, h3]
    simp [h2, h4, delete_bond_slaves_phase]

/-- C8 witness: the deletion loop on a slave interface absent from the
enumerated slaves leaves its stored wired connection in place. -/
theorem delete_bond_skips_unrelated_slave_witness :
    delete_slaves_loop "bond0" ["eth1"] ["eth0"]
        { connections := [create_wired_connection "eth0" (some "bond0")],
          active := [], devices := [] }
      = { connections := [create_wired_connection "eth0" (some "bond0")],
          active := [], devices := [] } :=
  (delete_bond_skips_unrelated_slave.1 "bond0" ["eth1"] "eth0" []
    { connections := [create_wired_connection "eth0" (some "bond0")],
      active := [], devices := [] }
    (by decide)).trans (by decide)

end Nutil
